import Mathlib

/-
Shallow embedding of src/modules/eletrolise.py (hydrogen-electrolyzer model).
Python floats are modelled as real numbers.  The four per-metric lists of the
operating-history dict are modelled as addresses into an explicit store, so
that the sharing behaviour of Python list objects (shallow copies alias the
underlying lists) is expressible.
-/

namespace Eletrolise

noncomputable section

/-- Gas constant R = 8.314 J/mol.K (class attribute `R`). -/
def R : ℝ := 8.314

/-- Faraday constant F = 96485 C/mol (class attribute `F`). -/
def F : ℝ := 96485

/-- Lower heating value of H2, 33.33 kWh/kg (class attribute `h_L`). -/
def h_L : ℝ := 33.33

/-- Molar mass of H2 in g/mol (class attribute `massa_molar_h2`). -/
def massa_molar_h2 : ℝ := 2.016

/-- Mirror of the dataclass `ParametrosEletrolisador`. -/
structure ParametrosEletrolisador where
  eficiencia : ℝ
  tensao_reversivel : ℝ
  coeficiente_transferencia : ℝ
  densidade_corrente_troca : ℝ
  resistencia_ohmica : ℝ
  temperatura_operacao : ℝ
  pressao_operacao : ℝ
  vida_util_anos : ℝ
  custo_capex_usd_kw : ℝ

/-- The `PARAMETROS_PADRAO['AEL']` dict, as an association list. -/
def padraoAEL : List (String × ℝ) :=
  [("eficiencia", 0.68), ("tensao_reversivel", 1.23),
   ("coeficiente_transferencia", 0.5), ("densidade_corrente_troca", 1e-3),
   ("resistencia_ohmica", 0.001), ("temperatura_operacao", 70),
   ("pressao_operacao", 30), ("vida_util_anos", 20),
   ("custo_capex_usd_kw", 800)]

/-- The `PARAMETROS_PADRAO['PEMEL']` dict, as an association list. -/
def padraoPEMEL : List (String × ℝ) :=
  [("eficiencia", 0.78), ("tensao_reversivel", 1.23),
   ("coeficiente_transferencia", 0.5), ("densidade_corrente_troca", 1e-4),
   ("resistencia_ohmica", 0.0008), ("temperatura_operacao", 60),
   ("pressao_operacao", 35), ("vida_util_anos", 15),
   ("custo_capex_usd_kw", 1200)]

/-- The `PARAMETROS_PADRAO['SOEL']` dict, as an association list. -/
def padraoSOEL : List (String × ℝ) :=
  [("eficiencia", 0.89), ("tensao_reversivel", 0.95),
   ("coeficiente_transferencia", 0.7), ("densidade_corrente_troca", 1e-2),
   ("resistencia_ohmica", 0.002), ("temperatura_operacao", 750),
   ("pressao_operacao", 1), ("vida_util_anos", 10),
   ("custo_capex_usd_kw", 2000)]

/-- Model of Python's `str.upper()`: upper-case every character. -/
def upper (s : String) : String := ⟨s.data.map Char.toUpper⟩

/-- Lookup in the class-level dict `PARAMETROS_PADRAO` (keys AEL/PEMEL/SOEL). -/
def PARAMETROS_PADRAO (t : String) : Option (List (String × ℝ)) :=
  if t = "AEL" then some padraoAEL
  else if t = "PEMEL" then some padraoPEMEL
  else if t = "SOEL" then some padraoSOEL
  else none

/-- References (list-object identities) held by the `historico` dict:
one Python list per metric, modelled as addresses into a store. -/
structure Historico where
  potencia : Nat
  producao : Nat
  temperatura : Nat
  tensao : Nat

/-- Instance attributes of class `Eletrolisador` (set in `__init__`). -/
structure Eletrolisador where
  tipo : String
  P_nom : ℝ
  P_min : ℝ
  parametros : ParametrosEletrolisador
  potencia_atual : ℝ
  temperatura_atual : ℝ
  horas_operacao : ℝ
  producao_acumulada_kg : ℝ
  historico : Historico

/-- Machine state: the object together with the heap of Python list objects
(`store a` is the contents of the list at address `a`) and an allocation
counter for fresh addresses. -/
structure Estado where
  elz : Eletrolisador
  store : Nat → List ℝ
  fresh : Nat

/-- Mirror of `Eletrolisador._carregar_parametros`: start from the defaults
dict for the technology, apply the overrides dict (`base.update(pers)`), then
read the nine named fields. -/
def carregar_parametros (base pers : List (String × ℝ)) : ParametrosEletrolisador :=
  let get := fun k => ((pers.lookup k).getD ((base.lookup k).getD 0))
  { eficiencia := get "eficiencia",
    tensao_reversivel := get "tensao_reversivel",
    coeficiente_transferencia := get "coeficiente_transferencia",
    densidade_corrente_troca := get "densidade_corrente_troca",
    resistencia_ohmica := get "resistencia_ohmica",
    temperatura_operacao := get "temperatura_operacao",
    pressao_operacao := get "pressao_operacao",
    vida_util_anos := get "vida_util_anos",
    custo_capex_usd_kw := get "custo_capex_usd_kw" }

/-- State of a freshly constructed instance (the tail of `__init__` after the
technology check): zero counters, four freshly allocated empty history lists
at addresses 0..3. -/
def novoEstado (t : String) (potencia_nominal : ℝ) (par : ParametrosEletrolisador) : Estado :=
  { elz := { tipo := t, P_nom := potencia_nominal, P_min := potencia_nominal * 0.2,
             parametros := par, potencia_atual := 0,
             temperatura_atual := par.temperatura_operacao,
             horas_operacao := 0, producao_acumulada_kg := 0,
             historico := { potencia := 0, producao := 1, temperatura := 2, tensao := 3 } },
    store := fun _ => [], fresh := 4 }

/-- The one construction failure of `Eletrolisador.__init__` (a ValueError
for an unknown technology tag), named after the spec's error taxonomy. -/
inductive ErroEletrolisador where
  | invalidTechnology : ErroEletrolisador

/-- Mirror of `Eletrolisador.__init__`: upper-case the tag, fail when it is
not a key of `PARAMETROS_PADRAO`, otherwise build the initial state. -/
def mkEletrolisador (tipo : String) (potencia_nominal : ℝ)
    (pers : List (String × ℝ)) : Except ErroEletrolisador Estado :=
  match PARAMETROS_PADRAO (upper tipo) with
  | none => .error .invalidTechnology
  | some base =>
      .ok (novoEstado (upper tipo) potencia_nominal (carregar_parametros base pers))

/-- Mirror of `Eletrolisador.calcular_producao` (Eq. 2.9). -/
def calcular_producao (e : Eletrolisador) (P_in : ℝ) : ℝ :=
  if P_in ≤ 0 then 0
  else (min P_in e.P_nom) * e.parametros.eficiencia / h_L

/-- Mirror of `Eletrolisador.calcular_sobretencao_ativacao` (Eq. 2.8, Tafel).
`np.log10` is modelled as `Real.logb 10`; `T?` models the optional argument
defaulting to the current temperature converted to Kelvin. -/
def calcular_sobretencao_ativacao (e : Eletrolisador) (j : ℝ) (T? : Option ℝ) : ℝ :=
  let T := T?.getD (e.temperatura_atual + 273.15)
  if j ≤ 0 then 0
  else
    let razao_corrente := max (j / e.parametros.densidade_corrente_troca) 1e-10
    let termo := (2.3 * R * T) / (e.parametros.coeficiente_transferencia * F)
    max (termo * Real.logb 10 razao_corrente) 0

/-- Mirror of `Eletrolisador.calcular_tensao_operacao` (Eq. 2.29):
V = V_rev + V_act + V_ohm, with the optional temperature resolved once and
passed explicitly to the activation-overpotential computation. -/
def calcular_tensao_operacao (e : Eletrolisador) (j : ℝ) (T? : Option ℝ) : ℝ :=
  let T := T?.getD (e.temperatura_atual + 273.15)
  let V_rev := e.parametros.tensao_reversivel
  let V_act := calcular_sobretencao_ativacao e j (some T)
  let V_ohm := j * e.parametros.resistencia_ohmica
  V_rev + V_act + V_ohm

/-- Mirror of `Eletrolisador.calcular_eficiencia_instantanea`. -/
def calcular_eficiencia_instantanea (e : Eletrolisador) (potencia : ℝ) : ℝ :=
  if potencia ≤ 0 then 0
  else
    let carga_rel := potencia / e.P_nom
    let fator_carga : ℝ :=
      if carga_rel < 0.3 then 0.85
      else if carga_rel < 0.6 then 0.92
      else if carga_rel < 0.9 then 0.98
      else 1.0
    e.parametros.eficiencia * fator_carga

/-- Effective power chosen by `Eletrolisador.operar`: clamp to nominal when
the request exceeds it, otherwise `max(0, requested)`.  The below-minimum
branch of the code only emits a warning and changes nothing. -/
def potenciaEfetiva (e : Eletrolisador) (p : ℝ) : ℝ :=
  if e.P_nom < p then e.P_nom else max 0 p

/-- Append one element to the Python list at address `r`. -/
def appendAt (st : Nat → List ℝ) (r : Nat) (x : ℝ) : Nat → List ℝ :=
  Function.update st r (st r ++ [x])

/-- Per-step result dict returned by `Eletrolisador.operar`. -/
structure Resultado where
  potencia_operacao : ℝ
  producao_kg_h : ℝ
  producao_periodo_kg : ℝ
  tensao_celula : ℝ
  temperatura : ℝ
  eficiencia_instantanea : ℝ

/-- Mirror of `Eletrolisador.operar`: compute the effective power, the
production for the interval and an estimated cell voltage, update the
cumulative counters, append one record to each history list, and return the
result dict.  The two limit checks of the code only log warnings. -/
def operar (s : Estado) (potencia_solicitada : ℝ) (delta_t_horas : ℝ) : Estado × Resultado :=
  let e := s.elz
  let potencia_efetiva := potenciaEfetiva e potencia_solicitada
  let producao_kg_h := calcular_producao e potencia_efetiva
  let producao_periodo := producao_kg_h * delta_t_horas
  let area_celula : ℝ := 100
  let j := potencia_efetiva * 1000 / (e.parametros.tensao_reversivel * area_celula * 100)
  let V := calcular_tensao_operacao e j none
  let elz2 := { e with potencia_atual := potencia_efetiva,
                       horas_operacao := e.horas_operacao + delta_t_horas,
                       producao_acumulada_kg := e.producao_acumulada_kg + producao_periodo }
  let store2 :=
    appendAt (appendAt (appendAt (appendAt s.store e.historico.potencia potencia_efetiva)
      e.historico.producao producao_periodo) e.historico.temperatura e.temperatura_atual)
      e.historico.tensao V
  ({ elz := elz2, store := store2, fresh := s.fresh },
   { potencia_operacao := potencia_efetiva, producao_kg_h := producao_kg_h,
     producao_periodo_kg := producao_periodo, tensao_celula := V,
     temperatura := e.temperatura_atual,
     eficiencia_instantanea := calcular_eficiencia_instantanea e potencia_efetiva })

/-- Mirror of `Eletrolisador.get_historico`: `self.historico.copy()` is a
shallow dict copy, so the returned dict holds the same four list objects
(the same addresses) as the instance. -/
def get_historico (e : Eletrolisador) : Historico :=
  e.historico

/-- Mirror of `Eletrolisador.reset_historico`: rebind `self.historico` to a
brand-new dict of four brand-new empty lists; the old list objects are left
untouched in the heap. -/
def reset_historico (s : Estado) : Estado :=
  { s with
    elz := { s.elz with
             historico := { potencia := s.fresh, producao := s.fresh + 1,
                            temperatura := s.fresh + 2, tensao := s.fresh + 3 } },
    fresh := s.fresh + 4 }

/-- Iterated operating steps (a caller-driven simulation loop): run `operar`
once per requested power in `ps`, all with the same interval `dt`. -/
def operarSeq (s : Estado) (ps : List ℝ) (dt : ℝ) : Estado :=
  ps.foldl (fun a p => (operar a p dt).1) s

/-- The concrete AEL instance `Eletrolisador('AEL', potencia_nominal=1000)`. -/
def estadoAEL : Estado :=
  novoEstado "AEL" 1000 (carregar_parametros padraoAEL [])

/-- The object component of `estadoAEL`. -/
def aelE : Eletrolisador := estadoAEL.elz

/-- The parameters resolved for the default AEL instance. -/
theorem aelE_parametros :
    aelE.parametros =
      { eficiencia := 0.68, tensao_reversivel := 1.23,
        coeficiente_transferencia := 0.5, densidade_corrente_troca := 1e-3,
        resistencia_ohmica := 0.001, temperatura_operacao := 70,
        pressao_operacao := 30, vida_util_anos := 20,
        custo_capex_usd_kw := 800 } := rfl

/-- Nominal power of the default AEL instance. -/
theorem aelE_P_nom : aelE.P_nom = 1000 := rfl

/-- Claim C1: for every input power, `calcular_producao` returns
`min(P_in, P_nominal) * efficiency / 33.33` when `P_in > 0`, returns exactly
0 when `P_in ≤ 0`, and for `P_in` above nominal it returns the value at
nominal (silent clamping). -/
theorem claim_C1 (e : Eletrolisador) (P_in : ℝ) (hnom : 0 < e.P_nom) :
    (P_in ≤ 0 → calcular_producao e P_in = 0) ∧
    (0 < P_in →
      calcular_producao e P_in = min P_in e.P_nom * e.parametros.eficiencia / 33.33) ∧
    (e.P_nom < P_in → calcular_producao e P_in = calcular_producao e e.P_nom) := by
  refine ⟨fun h => by simp [calcular_producao, h], fun h => ?_, fun h => ?_⟩
  · simp only [calcular_producao, if_neg (not_le.2 h), h_L]
  · have h1 : ¬ P_in ≤ 0 := not_le.2 (lt_trans hnom h)
    have h2 : ¬ e.P_nom ≤ 0 := not_le.2 hnom
    simp only [calcular_producao, if_neg h1, if_neg h2, min_eq_right h.le, min_self]

/-- Concrete check for C1: the AEL instance at 800 kW produces
800 * 0.68 / 33.33 kg/h (about 16.32). -/
theorem claim_C1_witness : calcular_producao aelE 800 = 800 * 0.68 / 33.33 := by
  have h := (claim_C1 aelE 800 (by rw [aelE_P_nom]; norm_num)).2.1 (by norm_num)
  rw [h, aelE_P_nom, aelE_parametros,
    show min (800 : ℝ) 1000 = 800 from min_eq_left (by norm_num)]

/-- Claim C2: the operate step is total (the model is a plain function, as
the code raises nothing), the effective power always equals
`min(max(0, requested), P_nominal)`, a below-minimum request (under 20% of
nominal) proceeds at the requested value, and an above-nominal request is
clamped to nominal. -/
theorem claim_C2 (s : Estado) (pot dt : ℝ) (hnom : 0 ≤ s.elz.P_nom) :
    (operar s pot dt).2.potencia_operacao = min (max 0 pot) s.elz.P_nom ∧
    (0 < pot → pot < 0.2 * s.elz.P_nom → (operar s pot dt).2.potencia_operacao = pot) ∧
    (s.elz.P_nom < pot → (operar s pot dt).2.potencia_operacao = s.elz.P_nom) := by
  have hres : (operar s pot dt).2.potencia_operacao = potenciaEfetiva s.elz pot := rfl
  refine ⟨?_, fun h1 h2 => ?_, fun h => ?_⟩
  · rw [hres, potenciaEfetiva]
    split_ifs with h
    · exact (min_eq_right (le_trans h.le (le_max_right 0 pot))).symm
    · exact (min_eq_left (max_le hnom (not_lt.1 h))).symm
  · have hle : pot ≤ s.elz.P_nom := by linarith
    rw [hres, potenciaEfetiva, if_neg (not_lt.2 hle), max_eq_right h1.le]
  · rw [hres, potenciaEfetiva, if_pos h]

/-- Concrete check for C2: requesting 1500 kW from the 1000 kW AEL instance
yields an effective power of 1000 kW. -/
theorem claim_C2_witness : (operar estadoAEL 1500 1).2.potencia_operacao = 1000 := by
  have h := (claim_C2 estadoAEL 1500 1
    (by rw [show estadoAEL.elz.P_nom = 1000 from rfl]; norm_num)).2.2
    (by rw [show estadoAEL.elz.P_nom = 1000 from rfl]; norm_num)
  exact h.trans rfl

/-- Claim C7: instantaneous efficiency is the nominal efficiency times a
load-fraction multiplier (0.85 below 30% load, 0.92 on [30%, 60%), 0.98 on
[60%, 90%), 1.0 at or above 90%), and exactly 0 for non-positive power. -/
theorem claim_C7 (e : Eletrolisador) (p : ℝ) :
    (p ≤ 0 → calcular_eficiencia_instantanea e p = 0) ∧
    (0 < p → p / e.P_nom < 0.3 →
      calcular_eficiencia_instantanea e p = e.parametros.eficiencia * 0.85) ∧
    (0 < p → 0.3 ≤ p / e.P_nom → p / e.P_nom < 0.6 →
      calcular_eficiencia_instantanea e p = e.parametros.eficiencia * 0.92) ∧
    (0 < p → 0.6 ≤ p / e.P_nom → p / e.P_nom < 0.9 →
      calcular_eficiencia_instantanea e p = e.parametros.eficiencia * 0.98) ∧
    (0 < p → 0.9 ≤ p / e.P_nom →
      calcular_eficiencia_instantanea e p = e.parametros.eficiencia * 1.0) := by
  refine ⟨fun h => by simp [calcular_eficiencia_instantanea, h],
    fun h0 h1 => ?_, fun h0 h1 h2 => ?_, fun h0 h1 h2 => ?_, fun h0 h1 => ?_⟩
  · simp [calcular_eficiencia_instantanea, h0.not_le, h1]
  · simp [calcular_eficiencia_instantanea, h0.not_le, not_lt.2 h1, h2]
  · simp [calcular_eficiencia_instantanea, h0.not_le, not_lt.2 h1,
      not_lt.2 (le_trans (by norm_num : (0.3 : ℝ) ≤ 0.6) h1), h2]
  · simp [calcular_eficiencia_instantanea, h0.not_le, not_lt.2 h1,
      not_lt.2 (le_trans (by norm_num : (0.3 : ℝ) ≤ 0.9) h1),
      not_lt.2 (le_trans (by norm_num : (0.6 : ℝ) ≤ 0.9) h1)]

/-- Concrete check for C7: the AEL instance at 950 kW (95% load) runs at its
nominal efficiency 0.68. -/
theorem claim_C7_witness : calcular_eficiencia_instantanea aelE 950 = 0.68 * 1.0 := by
  have h := (claim_C7 aelE 950).2.2.2.2 (by norm_num)
    (by rw [aelE_P_nom]; norm_num)
  rw [h, aelE_parametros]

/-- Charge-transfer coefficient of the default AEL instance. -/
theorem aelE_alpha : aelE.parametros.coeficiente_transferencia = 0.5 := rfl

/-- Exchange current density of the default AEL instance. -/
theorem aelE_j0 : aelE.parametros.densidade_corrente_troca = 1e-3 := rfl

/-- Ohmic resistance of the default AEL instance. -/
theorem aelE_Rohm : aelE.parametros.resistencia_ohmica = 0.001 := rfl

/-- Reversible voltage of the default AEL instance. -/
theorem aelE_Vrev : aelE.parametros.tensao_reversivel = 1.23 := rfl

/-- The activation overpotential is never negative (it is 0 for `j ≤ 0` and
otherwise explicitly floored at 0). -/
theorem sobretencao_nonneg (e : Eletrolisador) (j : ℝ) (T? : Option ℝ) :
    0 ≤ calcular_sobretencao_ativacao e j T? := by
  by_cases h : j ≤ 0
  · simp [calcular_sobretencao_ativacao, h]
  · simp only [calcular_sobretencao_ativacao, if_neg h]
    exact le_max_right _ _

/-- Claim C3 is false as stated: the code computes the Tafel prefactor with
coefficient 2.3 (as its docstring and tests also do), not 2.303.  At
j = 10 * j0 on the AEL instance (where log10(j/j0) = 1) the returned value
is the 2.3-prefactor, which differs from the claimed 2.303-prefactor. -/
theorem claim_C3_counterexample :
    calcular_sobretencao_ativacao aelE 0.01 (some 300) ≠
      2.303 * 8.314 * 300 / (0.5 * 96485) *
        Real.logb 10 (max (0.01 / 1e-3) 1e-10) := by
  have hmax : max (0.01 / 1e-3 : ℝ) 1e-10 = 10 := by
    rw [show (0.01 : ℝ) / 1e-3 = 10 by norm_num]
    exact max_eq_left (by norm_num)
  have hlog : Real.logb 10 (10 : ℝ) = 1 := Real.logb_self_eq_one (by norm_num)
  have hcode : calcular_sobretencao_ativacao aelE 0.01 (some 300) =
      2.3 * 8.314 * 300 / (0.5 * 96485) := by
    simp only [calcular_sobretencao_ativacao, Option.getD_some, R, F,
      aelE_alpha, aelE_j0, if_neg (by norm_num : ¬ (0.01 : ℝ) ≤ 0)]
    rw [hmax, hlog, mul_one]
    exact max_eq_left (by positivity)
  rw [hcode, hmax, hlog, mul_one]
  norm_num

/-- Claim C3 (amended: the Tafel prefactor uses coefficient 2.3, as in the
code, not 2.303): for every current density and temperature, the activation
overpotential is `2.3 * R * T / (α * F) * log10(max(j / j0, 1e-10))` with
R = 8.314 and F = 96485 whenever that value is non-negative, is floored at 0
when the raw Tafel term is negative, and is exactly 0 when `j ≤ 0`. -/
theorem claim_C3 (e : Eletrolisador) (j T : ℝ) :
    (j ≤ 0 → calcular_sobretencao_ativacao e j (some T) = 0) ∧
    (0 < j →
      0 ≤ 2.3 * 8.314 * T / (e.parametros.coeficiente_transferencia * 96485) *
        Real.logb 10 (max (j / e.parametros.densidade_corrente_troca) 1e-10) →
      calcular_sobretencao_ativacao e j (some T) =
        2.3 * 8.314 * T / (e.parametros.coeficiente_transferencia * 96485) *
          Real.logb 10 (max (j / e.parametros.densidade_corrente_troca) 1e-10)) ∧
    (0 < j →
      2.3 * 8.314 * T / (e.parametros.coeficiente_transferencia * 96485) *
        Real.logb 10 (max (j / e.parametros.densidade_corrente_troca) 1e-10) < 0 →
      calcular_sobretencao_ativacao e j (some T) = 0) := by
  refine ⟨fun h => by simp [calcular_sobretencao_ativacao, h],
    fun hj hge => ?_, fun hj hlt => ?_⟩
  · simp only [calcular_sobretencao_ativacao, Option.getD_some,
      if_neg (not_le.2 hj), R, F]
    exact max_eq_left hge
  · simp only [calcular_sobretencao_ativacao, Option.getD_some,
      if_neg (not_le.2 hj), R, F]
    exact max_eq_right hlt.le

/-- Concrete check for C3 (the spec's own scenario): at j = 0.1 * j0 on the
AEL instance the raw Tafel term is negative, so the result is exactly 0. -/
theorem claim_C3_witness : calcular_sobretencao_ativacao aelE 1e-4 (some 300) = 0 := by
  have hraw : 2.3 * 8.314 * 300 / (aelE.parametros.coeficiente_transferencia * 96485) *
      Real.logb 10 (max (1e-4 / aelE.parametros.densidade_corrente_troca) 1e-10) < 0 := by
    rw [aelE_alpha, aelE_j0, show (1e-4 : ℝ) / 1e-3 = 0.1 by norm_num,
      max_eq_left (by norm_num : (1e-10 : ℝ) ≤ 0.1)]
    exact mul_neg_of_pos_of_neg (by positivity)
      (Real.logb_neg (by norm_num) (by norm_num) (by norm_num))
  exact (claim_C3 aelE 1e-4 300).2.2 (by norm_num) hraw

/-- Claim C4: the cell voltage is the sum `V_rev + V_act + V_ohm` with
`V_ohm = j * specific_ohmic_resistance`, and for positive current density
(and the positive ohmic resistance every technology has) the total strictly
exceeds the reversible voltage. -/
theorem claim_C4 (e : Eletrolisador) (j : ℝ) (T? : Option ℝ)
    (hj : 0 < j) (hohm : 0 < e.parametros.resistencia_ohmica) :
    calcular_tensao_operacao e j T? =
      e.parametros.tensao_reversivel +
        calcular_sobretencao_ativacao e j (some (T?.getD (e.temperatura_atual + 273.15))) +
        j * e.parametros.resistencia_ohmica ∧
    e.parametros.tensao_reversivel < calcular_tensao_operacao e j T? := by
  have hact : 0 ≤ calcular_sobretencao_ativacao e j
      (some (T?.getD (e.temperatura_atual + 273.15))) := sobretencao_nonneg e j _
  have heq : calcular_tensao_operacao e j T? =
      e.parametros.tensao_reversivel +
        calcular_sobretencao_ativacao e j (some (T?.getD (e.temperatura_atual + 273.15))) +
        j * e.parametros.resistencia_ohmica := rfl
  refine ⟨heq, ?_⟩
  have hpos : 0 < j * e.parametros.resistencia_ohmica := mul_pos hj hohm
  rw [heq]
  linarith

/-- Concrete check for C4: on the AEL instance at j = 1000 A/m² the cell
voltage strictly exceeds the reversible voltage 1.23 V. -/
theorem claim_C4_witness : (1.23 : ℝ) < calcular_tensao_operacao aelE 1000 none := by
  have h := (claim_C4 aelE 1000 none (by norm_num)
    (by rw [aelE_Rohm]; norm_num)).2
  rw [← aelE_Vrev]
  exact h

/-- The operate step never changes the nominal power. -/
theorem operar_P_nom (s : Estado) (p dt : ℝ) :
    ((operar s p dt).1).elz.P_nom = s.elz.P_nom := rfl

/-- The operate step adds the interval to the cumulative operating hours. -/
theorem operar_horas (s : Estado) (p dt : ℝ) :
    ((operar s p dt).1).elz.horas_operacao = s.elz.horas_operacao + dt := rfl

/-- The operate step adds the interval production (rate times interval) to
the cumulative produced mass. -/
theorem operar_producao_acum (s : Estado) (p dt : ℝ) :
    ((operar s p dt).1).elz.producao_acumulada_kg =
      s.elz.producao_acumulada_kg +
        calcular_producao s.elz (potenciaEfetiva s.elz p) * dt := rfl

/-- The operate step sets the current power to the effective power. -/
theorem operar_potencia_atual (s : Estado) (p dt : ℝ) :
    ((operar s p dt).1).elz.potencia_atual = potenciaEfetiva s.elz p := rfl

/-- `operarSeq` on the empty request list is the identity. -/
theorem operarSeq_nil (s : Estado) (dt : ℝ) : operarSeq s [] dt = s := rfl

/-- `operarSeq` peels one step off the front of the request list. -/
theorem operarSeq_cons (s : Estado) (p : ℝ) (ps : List ℝ) (dt : ℝ) :
    operarSeq s (p :: ps) dt = operarSeq ((operar s p dt).1) ps dt := rfl

/-- Accumulation of hours and produced mass over an iterated simulation
loop, from an arbitrary starting state. -/
theorem operarSeq_acum (ps : List ℝ) : ∀ (s : Estado) (dt : ℝ),
    (operarSeq s ps dt).elz.horas_operacao =
      s.elz.horas_operacao + ps.length * dt ∧
    (operarSeq s ps dt).elz.producao_acumulada_kg =
      s.elz.producao_acumulada_kg +
        (ps.map (fun p => calcular_producao s.elz (potenciaEfetiva s.elz p) * dt)).sum := by
  induction ps with
  | nil => intro s dt; simp [operarSeq]
  | cons p ps ih =>
      intro s dt
      have h := ih ((operar s p dt).1) dt
      rw [operarSeq_cons]
      constructor
      · rw [h.1, operar_horas, List.length_cons]
        push_cast
        ring
      · rw [h.2, operar_producao_acum]
        have hmap : (ps.map (fun q => calcular_producao ((operar s p dt).1).elz
            (potenciaEfetiva ((operar s p dt).1).elz q) * dt)) =
            ps.map (fun q => calcular_producao s.elz (potenciaEfetiva s.elz q) * dt) := rfl
        rw [hmap, List.map_cons, List.sum_cons]
        ring

/-- Claim C5: after N operate steps with a common interval on a fresh
instance, the cumulative hours equal N times the interval and the cumulative
produced mass equals the sum of the per-interval productions (each being
that step's production rate times the interval); exact equalities in the
real-number model. -/
theorem claim_C5 (s : Estado) (ps : List ℝ) (dt : ℝ)
    (h0 : s.elz.horas_operacao = 0) (h1 : s.elz.producao_acumulada_kg = 0) :
    (operarSeq s ps dt).elz.horas_operacao = ps.length * dt ∧
    (operarSeq s ps dt).elz.producao_acumulada_kg =
      (ps.map (fun p => calcular_producao s.elz (potenciaEfetiva s.elz p) * dt)).sum := by
  have h := operarSeq_acum ps s dt
  refine ⟨?_, ?_⟩
  · rw [h.1, h0, zero_add]
  · rw [h.2, h1, zero_add]

/-- Concrete check for C5: two one-hour steps on the fresh AEL instance give
2 cumulative hours and the sum of the two interval productions. -/
theorem claim_C5_witness :
    (operarSeq estadoAEL [500, 1500] 1).elz.horas_operacao = 2 ∧
    (operarSeq estadoAEL [500, 1500] 1).elz.producao_acumulada_kg =
      ([500, 1500].map
        (fun p => calcular_producao estadoAEL.elz (potenciaEfetiva estadoAEL.elz p) * 1)).sum := by
  have h := claim_C5 estadoAEL [500, 1500] 1 rfl rfl
  refine ⟨?_, h.2⟩
  rw [h.1]
  norm_num

/-- Claim C6 is false as stated: the operate step accepts a negative time
interval and then decreases the cumulative-hours counter (below zero on a
fresh instance). -/
theorem claim_C6_counterexample :
    (operar estadoAEL 500 (-1)).1.elz.horas_operacao <
      estadoAEL.elz.horas_operacao ∧
    (operar estadoAEL 500 (-1)).1.elz.horas_operacao < 0 := by
  rw [operar_horas, show estadoAEL.elz.horas_operacao = 0 from rfl]
  norm_num

/-- Interval production is non-negative for the effective power actually
used by the operate step, whenever the efficiency parameter is
non-negative. -/
theorem producao_efetiva_nonneg (e : Eletrolisador) (p : ℝ)
    (heff : 0 ≤ e.parametros.eficiencia) :
    0 ≤ calcular_producao e (potenciaEfetiva e p) := by
  unfold potenciaEfetiva
  split_ifs with h
  · by_cases h2 : e.P_nom ≤ 0
    · simp [calcular_producao, h2]
    · push_neg at h2
      rw [calcular_producao, if_neg (not_le.2 h2), min_self]
      exact div_nonneg (mul_nonneg h2.le heff) (by norm_num [h_L])
  · by_cases h2 : max 0 p ≤ 0
    · simp [calcular_producao, h2]
    · push_neg at h2
      have hp : 0 < p := by
        rcases lt_max_iff.1 h2 with h3 | h3
        · exact absurd h3 (lt_irrefl 0)
        · exact h3
      have hple : p ≤ e.P_nom := not_lt.1 h
      rw [calcular_producao, if_neg (not_le.2 h2), max_eq_right hp.le,
        min_eq_left hple]
      exact div_nonneg (mul_nonneg hp.le heff) (by norm_num [h_L])

/-- Claim C6 (amended: for non-negative time intervals): the cumulative
counters never decrease under the operate step when the interval is
non-negative (given the technology's non-negative efficiency), and a history
reset leaves both counters unchanged. -/
theorem claim_C6 (s : Estado) (p dt : ℝ) (hdt : 0 ≤ dt)
    (heff : 0 ≤ s.elz.parametros.eficiencia) :
    s.elz.horas_operacao ≤ (operar s p dt).1.elz.horas_operacao ∧
    s.elz.producao_acumulada_kg ≤ (operar s p dt).1.elz.producao_acumulada_kg ∧
    (reset_historico s).elz.horas_operacao = s.elz.horas_operacao ∧
    (reset_historico s).elz.producao_acumulada_kg = s.elz.producao_acumulada_kg := by
  refine ⟨?_, ?_, rfl, rfl⟩
  · rw [operar_horas]
    linarith
  · rw [operar_producao_acum]
    have h := mul_nonneg (producao_efetiva_nonneg s.elz p heff) hdt
    linarith

/-- Concrete check for C6 (amended): a one-hour step at 500 kW on the fresh
AEL instance does not decrease either counter. -/
theorem claim_C6_witness :
    estadoAEL.elz.horas_operacao ≤ (operar estadoAEL 500 1).1.elz.horas_operacao ∧
    estadoAEL.elz.producao_acumulada_kg ≤
      (operar estadoAEL 500 1).1.elz.producao_acumulada_kg := by
  have h := claim_C6 estadoAEL 500 1 (by norm_num)
    (by rw [show estadoAEL.elz.parametros.eficiencia = 0.68 from rfl]; norm_num)
  exact ⟨h.1, h.2.1⟩

/-- Claim C8: construction fails exactly when the upper-cased technology tag
is none of AEL, PEMEL, SOEL, and the only construction failure is
InvalidTechnology. -/
theorem claim_C8 (tipo : String) (pot : ℝ) (pers : List (String × ℝ)) :
    ((mkEletrolisador tipo pot pers).isOk = true ↔
      (upper tipo = "AEL" ∨ upper tipo = "PEMEL" ∨ upper tipo = "SOEL")) ∧
    (∀ err, mkEletrolisador tipo pot pers = .error err →
      err = ErroEletrolisador.invalidTechnology) := by
  constructor
  · unfold mkEletrolisador PARAMETROS_PADRAO
    split_ifs with h1 h2 h3 <;> simp_all [Except.isOk, Except.toBool]
  · intro err _
    cases err
    rfl

/-- Concrete check for C8: the tag INVALIDO is rejected while the
lower-case tag ael (case-insensitive match of AEL) is accepted. -/
theorem claim_C8_witness :
    (mkEletrolisador "INVALIDO" 1000 []).isOk = false ∧
    (mkEletrolisador "ael" 1000 []).isOk = true := by
  constructor
  · have h := (claim_C8 "INVALIDO" 1000 []).1
    have h2 : ¬ (upper "INVALIDO" = "AEL" ∨ upper "INVALIDO" = "PEMEL" ∨
        upper "INVALIDO" = "SOEL") := by decide
    cases hb : (mkEletrolisador "INVALIDO" 1000 []).isOk
    · rfl
    · exact absurd (h.1 hb) h2
  · exact (claim_C8 "ael" 1000 []).1.mpr (Or.inl (by decide))

/-- Reading the address just written by `appendAt` sees the appended
element. -/
theorem appendAt_same (st : Nat → List ℝ) (r : Nat) (x : ℝ) :
    appendAt st r x r = st r ++ [x] := by
  simp [appendAt]

/-- Reading any other address is unaffected by `appendAt`. -/
theorem appendAt_other (st : Nat → List ℝ) (r : Nat) (x : ℝ) (r2 : Nat)
    (h : r2 ≠ r) : appendAt st r x r2 = st r2 :=
  Function.update_noteq h _ _

/-- The store after one operate step: one element appended to each of the
four history lists, in the order the code appends them. -/
theorem operar_store (s : Estado) (p dt : ℝ) :
    (operar s p dt).1.store =
      appendAt (appendAt (appendAt (appendAt s.store
        s.elz.historico.potencia (potenciaEfetiva s.elz p))
        s.elz.historico.producao (calcular_producao s.elz (potenciaEfetiva s.elz p) * dt))
        s.elz.historico.temperatura s.elz.temperatura_atual)
        s.elz.historico.tensao
        (calcular_tensao_operacao s.elz
          (potenciaEfetiva s.elz p * 1000 / (s.elz.parametros.tensao_reversivel * 100 * 100))
          none) := rfl

/-- After one operate step, the power history list holds one more element:
the effective power. -/
theorem operar_store_potencia (s : Estado) (p dt : ℝ)
    (h12 : s.elz.historico.potencia ≠ s.elz.historico.producao)
    (h13 : s.elz.historico.potencia ≠ s.elz.historico.temperatura)
    (h14 : s.elz.historico.potencia ≠ s.elz.historico.tensao) :
    (operar s p dt).1.store s.elz.historico.potencia =
      s.store s.elz.historico.potencia ++ [potenciaEfetiva s.elz p] := by
  rw [operar_store, appendAt_other _ _ _ _ h14, appendAt_other _ _ _ _ h13,
    appendAt_other _ _ _ _ h12, appendAt_same]

/-- After one operate step, the production history list holds one more
element: the interval production. -/
theorem operar_store_producao (s : Estado) (p dt : ℝ)
    (h12 : s.elz.historico.potencia ≠ s.elz.historico.producao)
    (h23 : s.elz.historico.producao ≠ s.elz.historico.temperatura)
    (h24 : s.elz.historico.producao ≠ s.elz.historico.tensao) :
    (operar s p dt).1.store s.elz.historico.producao =
      s.store s.elz.historico.producao ++
        [calcular_producao s.elz (potenciaEfetiva s.elz p) * dt] := by
  rw [operar_store, appendAt_other _ _ _ _ h24, appendAt_other _ _ _ _ h23,
    appendAt_same, appendAt_other _ _ _ _ (Ne.symm h12)]

/-- After one operate step, the temperature history list holds one more
element: the current temperature. -/
theorem operar_store_temperatura (s : Estado) (p dt : ℝ)
    (h13 : s.elz.historico.potencia ≠ s.elz.historico.temperatura)
    (h23 : s.elz.historico.producao ≠ s.elz.historico.temperatura)
    (h34 : s.elz.historico.temperatura ≠ s.elz.historico.tensao) :
    (operar s p dt).1.store s.elz.historico.temperatura =
      s.store s.elz.historico.temperatura ++ [s.elz.temperatura_atual] := by
  rw [operar_store, appendAt_other _ _ _ _ h34, appendAt_same,
    appendAt_other _ _ _ _ (Ne.symm h23), appendAt_other _ _ _ _ (Ne.symm h13)]

/-- After one operate step, the voltage history list holds one more element:
the estimated cell voltage. -/
theorem operar_store_tensao (s : Estado) (p dt : ℝ)
    (h14 : s.elz.historico.potencia ≠ s.elz.historico.tensao)
    (h24 : s.elz.historico.producao ≠ s.elz.historico.tensao)
    (h34 : s.elz.historico.temperatura ≠ s.elz.historico.tensao) :
    (operar s p dt).1.store s.elz.historico.tensao =
      s.store s.elz.historico.tensao ++
        [calcular_tensao_operacao s.elz
          (potenciaEfetiva s.elz p * 1000 / (s.elz.parametros.tensao_reversivel * 100 * 100))
          none] := by
  rw [operar_store, appendAt_same, appendAt_other _ _ _ _ (Ne.symm h34),
    appendAt_other _ _ _ _ (Ne.symm h24), appendAt_other _ _ _ _ (Ne.symm h14)]

/-- Claim C9 is false as stated: the history accessor models
`self.historico.copy()`, a shallow dict copy, so a subsequent operate step
changes the contents seen through a previously returned history (on the
fresh AEL instance the previously returned power list reads empty before the
step and non-empty after it). -/
theorem claim_C9_counterexample :
    (operar estadoAEL 500 1).1.store (get_historico estadoAEL.elz).potencia ≠
      estadoAEL.store (get_historico estadoAEL.elz).potencia := by
  have h := operar_store_potencia estadoAEL 500 1 (by decide) (by decide) (by decide)
  have h2 : get_historico estadoAEL.elz = estadoAEL.elz.historico := rfl
  rw [h2, h, show estadoAEL.store estadoAEL.elz.historico.potencia = ([] : List ℝ) from rfl]
  simp

/-- Claim C9 (amended: the copy is shallow, not defensive): the accessor
returns a dict holding the same list references as the instance, so an
operate step after the access appends a visible record to the previously
returned history; a history reset installs fresh lists and leaves the
contents read through previously returned references unchanged. -/
theorem claim_C9 (s : Estado) (p dt : ℝ)
    (h12 : s.elz.historico.potencia ≠ s.elz.historico.producao)
    (h13 : s.elz.historico.potencia ≠ s.elz.historico.temperatura)
    (h14 : s.elz.historico.potencia ≠ s.elz.historico.tensao) :
    get_historico ((operar s p dt).1.elz) = get_historico s.elz ∧
    (operar s p dt).1.store (get_historico s.elz).potencia =
      s.store (get_historico s.elz).potencia ++ [potenciaEfetiva s.elz p] ∧
    (reset_historico s).store (get_historico s.elz).potencia =
      s.store (get_historico s.elz).potencia := by
  exact ⟨rfl, operar_store_potencia s p dt h12 h13 h14, rfl⟩

/-- Concrete check for C9 (amended): on the fresh AEL instance, a 500 kW
step appends the effective power to the shared power list. -/
theorem claim_C9_witness :
    get_historico ((operar estadoAEL 500 1).1.elz) = get_historico estadoAEL.elz ∧
    (operar estadoAEL 500 1).1.store (get_historico estadoAEL.elz).potencia =
      estadoAEL.store (get_historico estadoAEL.elz).potencia ++
        [potenciaEfetiva estadoAEL.elz 500] ∧
    (reset_historico estadoAEL).store (get_historico estadoAEL.elz).potencia =
      estadoAEL.store (get_historico estadoAEL.elz).potencia :=
  claim_C9 estadoAEL 500 1 (by decide) (by decide) (by decide)

/-- Claim C10: a non-positive power request is still a full operating
period: current power becomes 0, the production rate, interval production
and instantaneous efficiency are 0, the cumulative mass is unchanged, yet
the cumulative hours grow by the interval and every history list gains one
record. -/
theorem claim_C10 (s : Estado) (p dt : ℝ) (hp : p ≤ 0) (hnom : 0 < s.elz.P_nom)
    (h12 : s.elz.historico.potencia ≠ s.elz.historico.producao)
    (h13 : s.elz.historico.potencia ≠ s.elz.historico.temperatura)
    (h14 : s.elz.historico.potencia ≠ s.elz.historico.tensao)
    (h23 : s.elz.historico.producao ≠ s.elz.historico.temperatura)
    (h24 : s.elz.historico.producao ≠ s.elz.historico.tensao)
    (h34 : s.elz.historico.temperatura ≠ s.elz.historico.tensao) :
    (operar s p dt).1.elz.potencia_atual = 0 ∧
    (operar s p dt).2.producao_kg_h = 0 ∧
    (operar s p dt).2.producao_periodo_kg = 0 ∧
    (operar s p dt).2.eficiencia_instantanea = 0 ∧
    (operar s p dt).1.elz.producao_acumulada_kg = s.elz.producao_acumulada_kg ∧
    (operar s p dt).1.elz.horas_operacao = s.elz.horas_operacao + dt ∧
    ((operar s p dt).1.store s.elz.historico.potencia).length =
      (s.store s.elz.historico.potencia).length + 1 ∧
    ((operar s p dt).1.store s.elz.historico.producao).length =
      (s.store s.elz.historico.producao).length + 1 ∧
    ((operar s p dt).1.store s.elz.historico.temperatura).length =
      (s.store s.elz.historico.temperatura).length + 1 ∧
    ((operar s p dt).1.store s.elz.historico.tensao).length =
      (s.store s.elz.historico.tensao).length + 1 := by
  have hef : potenciaEfetiva s.elz p = 0 := by
    rw [potenciaEfetiva, if_neg (not_lt.2 (le_trans hp hnom.le)), max_eq_left hp]
  have hprod : calcular_producao s.elz (potenciaEfetiva s.elz p) = 0 := by
    rw [hef]
    simp [calcular_producao]
  have hrate : (operar s p dt).2.producao_kg_h =
      calcular_producao s.elz (potenciaEfetiva s.elz p) := rfl
  have hper : (operar s p dt).2.producao_periodo_kg =
      calcular_producao s.elz (potenciaEfetiva s.elz p) * dt := rfl
  have hefi : (operar s p dt).2.eficiencia_instantanea =
      calcular_eficiencia_instantanea s.elz (potenciaEfetiva s.elz p) := rfl
  refine ⟨?_, ?_, ?_, ?_, ?_, operar_horas s p dt, ?_, ?_, ?_, ?_⟩
  · rw [operar_potencia_atual, hef]
  · rw [hrate, hprod]
  · rw [hper, hprod, zero_mul]
  · rw [hefi, hef]
    simp [calcular_eficiencia_instantanea]
  · rw [operar_producao_acum, hprod, zero_mul, add_zero]
  · rw [operar_store_potencia s p dt h12 h13 h14]
    simp
  · rw [operar_store_producao s p dt h12 h23 h24]
    simp
  · rw [operar_store_temperatura s p dt h13 h23 h34]
    simp
  · rw [operar_store_tensao s p dt h14 h24 h34]
    simp

/-- Concrete check for C10: a request of -5 kW for 2 hours on the fresh AEL
instance sets the current power to 0 and still adds the 2 hours. -/
theorem claim_C10_witness :
    (operar estadoAEL (-5) 2).1.elz.potencia_atual = 0 ∧
    (operar estadoAEL (-5) 2).1.elz.horas_operacao =
      estadoAEL.elz.horas_operacao + 2 := by
  have hnom : (0 : ℝ) < estadoAEL.elz.P_nom := by
    rw [show estadoAEL.elz.P_nom = 1000 from rfl]
    norm_num
  have h := claim_C10 estadoAEL (-5) 2 (by norm_num) hnom
    (by decide) (by decide) (by decide) (by decide) (by decide) (by decide)
  exact ⟨h.1, h.2.2.2.2.2.1⟩

end

end Eletrolise
